import Mathlib

/-!
Shallow embedding of the jules_telegram_bot repository
(src/jules_bot/bot.py, src/jules_bot/jules_client.py) and proofs about the
monitoring loop, the transition evaluator, the session state store and the
lifecycle controller.

Conventions of the embedding:
* Python strings are Lean `String`; a `dict.get` that may be missing is
  `Option String` with `Option.getD` for `get(key, default)`.
* The module-level globals MONITORING_ACTIVE, MONITORING_TASK_REF and
  SESSION_STATES (bot.py lines 40-42) form `ProcState`.
* SESSION_STATES is embedded as an insertion-ordered association list with
  Python-dict update semantics (`storeSet` overwrites in place, appends new
  keys at the end, never deletes).
* Wall-clock time is seconds as `Nat`; `timedelta(hours=1)` is 3600.
* The outside world seen by one loop iteration (current time at the `while`
  boundary, the flag value at the boundary, the fetch outcome, whether the
  Telegram send succeeds) is a `CycleInput`; the loop consumes a list of them.
-/

namespace JulesBot

/-- Outcome of a remote task handle, for the Run State model
(MONITORING_TASK_REF, bot.py line 41). -/
inductive TaskStatus where
  | running
  | completed
  | cancelled
deriving DecidableEq, Repr

/-- SESSION_STATES (bot.py line 42): mapping session id to last seen state
string, with Python-dict semantics. -/
abbrev Store := List (String × String)

/-- Lookup in the session state store, `SESSION_STATES.get(s_id)`. -/
def storeGet : Store → String → Option String
  | [], _ => none
  | (k, v) :: rest, x => if k = x then some v else storeGet rest x

/-- Update in the session state store, `SESSION_STATES[s_id] = s_state`:
overwrite in place when the key exists, append otherwise, never delete. -/
def storeSet : Store → String → String → Store
  | [], k, v => [(k, v)]
  | (k0, v0) :: rest, k, v =>
    if k0 = k then (k0, v) :: rest else (k0, v0) :: storeSet rest k v

/-- One raw session object of the list_sessions payload: the three fields the
loop reads (bot.py lines 239-241), each possibly missing. -/
structure RawSession where
  id : Option String
  title : Option String
  state : Option String
deriving DecidableEq, Repr

/-- The critical-status list of bot.py line 254. -/
def criticalStates : List String := ["AWAITING_PLAN_APPROVAL", "AWAITING_USER_FEEDBACK"]

/-- The notification decision of bot.py lines 249-259: on first sight notify
exactly when the state is critical, afterwards notify exactly on a change. -/
def shouldNotify (previousState : Option String) (sState : String) : Bool :=
  match previousState with
  | none => decide (sState ∈ criticalStates)
  | some p => sState != p

/-- Escaping done by aiogram html.quote (an external collaborator of the
source): the three HTML metacharacters are replaced. -/
def escapeHtmlChar (c : Char) : String :=
  if c = '&' then "&amp;"
  else if c = '<' then "&lt;"
  else if c = '>' then "&gt;"
  else String.singleton c

/-- Model of aiogram `html.quote`. -/
def htmlQuote (s : String) : String := String.join (s.data.map escapeHtmlChar)

/-- Model of aiogram `html.bold`. -/
def htmlBold (s : String) : String := "<b>" ++ htmlQuote s ++ "</b>"

/-- Model of aiogram `html.code`. -/
def htmlCode (s : String) : String := "<code>" ++ htmlQuote s ++ "</code>"

/-- The per-session notification line built at bot.py line 262. -/
def notificationText (sId sTitle sState : String) : String :=
  "Session: " ++ htmlQuote sTitle ++ " (" ++ htmlCode sId ++ ")\nStatus: " ++ htmlBold sState

/-- The identifier under which a raw session is recorded, if any: bot.py
line 243 skips sessions whose id is missing or empty (`if not s_id`). -/
def sessionKey (r : RawSession) : Option String :=
  match r.id with
  | none => none
  | some i => if i = "" then none else some i

/-- The body of the per-session for-loop of bot.py lines 238-265: decide a
notification from the previous state, then record the new state. -/
def processSession (r : RawSession) (st : Store) : List String × Store :=
  match r.id with
  | none => ([], st)
  | some sId =>
    if sId = "" then ([], st)
    else
      let sTitle := r.title.getD "No Title"
      let sState := r.state.getD "UNKNOWN"
      let previousState := storeGet st sId
      (if shouldNotify previousState sState then [notificationText sId sTitle sState] else [],
       storeSet st sId sState)

/-- The whole for-loop of one monitoring cycle (bot.py lines 236-265):
accumulate the changes_detected list while threading the store. -/
def runCheck : List RawSession → Store → List String × Store
  | [], st => ([], st)
  | r :: rest, st =>
    ((processSession r st).1 ++ (runCheck rest (processSession r st).2).1,
     (runCheck rest (processSession r st).2).2)

/-- Batching of bot.py lines 267-270: nothing when no change was collected,
otherwise a single message headed by the bold Updates header. -/
def cycleMessages (changes : List String) : List String :=
  if changes.isEmpty then []
  else [htmlBold "Updates:" ++ "\n" ++ String.intercalate "\n" changes]

/-- Outcome of the fetch step of one iteration (bot.py line 233).
`ok sessions` is a payload (jules_client.list_sessions returns an empty dict,
hence an empty session list, on a caught RequestException); `error` is an
exception escaping the fetch or evaluation, caught at bot.py line 272. -/
inductive FetchResult where
  | ok (sessions : List RawSession)
  | error
deriving DecidableEq, Repr

/-- One iteration of the try/except body of bot.py lines 231-273: returns the
store after the cycle and the messages actually delivered. A raised exception
(fetch or delivery) is caught by the handler at line 272, so a failed delivery
still keeps the store updates that happened before the send. -/
def runIteration (fetch : FetchResult) (deliveryOk : Bool) (st : Store) :
    Store × List String :=
  match fetch with
  | FetchResult.error => (st, [])
  | FetchResult.ok sessions =>
    ((runCheck sessions st).2,
     if deliveryOk then cycleMessages (runCheck sessions st).1 else [])

/-- Environment of one `while` boundary and iteration: the time and flag value
observed by the loop condition at bot.py line 229, and the iteration's fetch
and delivery outcomes. -/
structure CycleInput where
  now : Nat
  active : Bool
  fetch : FetchResult
  deliveryOk : Bool
deriving DecidableEq, Repr

/-- The loop condition of bot.py line 229:
`datetime.now() < end_time and MONITORING_ACTIVE`. -/
def loopCond (endTime : Nat) (c : CycleInput) : Bool :=
  decide (c.now < endTime) && c.active

/-- Result of running the monitoring loop over a finite prefix of boundary
observations. `exited` records whether the loop condition failed within the
provided inputs; when it did, the epilogue of bot.py lines 278-280 runs,
which always sends exactly one finished notice. `iterations` counts the
iterations that were begun. -/
structure LoopResult where
  exited : Bool
  store : Store
  updateMessages : List String
  finishedNotices : Nat
  iterations : Nat
deriving DecidableEq, Repr

/-- The monitoring loop of bot.py lines 222-280, driven by a finite list of
boundary observations. Each step re-checks the condition of line 229; a
passing check runs one iteration and recurses, a failing check runs the
epilogue (lines 278-280), which sends the finished notice unconditionally. -/
def monitoringLoop (endTime : Nat) : List CycleInput → Store → LoopResult
  | [], st =>
    { exited := false, store := st, updateMessages := [], finishedNotices := 0,
      iterations := 0 }
  | c :: rest, st =>
    if loopCond endTime c then
      let p := runIteration c.fetch c.deliveryOk st
      let r := monitoringLoop endTime rest p.1
      { r with updateMessages := p.2 ++ r.updateMessages, iterations := r.iterations + 1 }
    else
      { exited := true, store := st, updateMessages := [], finishedNotices := 1,
        iterations := 0 }

/-- Entry of the loop (bot.py line 227): the deadline is fixed at start time
plus one hour (3600 seconds) before the first boundary check. -/
def monitorRun (startTime : Nat) (inputs : List CycleInput) (st : Store) : LoopResult :=
  monitoringLoop (startTime + 3600) inputs st

/-- The module-level mutable globals of bot.py lines 40-42. -/
structure ProcState where
  monitoringActive : Bool
  monitoringTaskRef : Option TaskStatus
  sessionStates : Store
deriving DecidableEq, Repr

/-- Initial global state at process start (bot.py lines 40-42). -/
def procInit : ProcState :=
  { monitoringActive := false, monitoringTaskRef := none, sessionStates := [] }

/-- The Run State invariant of the spec: the active flag is set exactly when a
task handle is present and still running (neither completed nor cancelled). -/
def runStateOk (ps : ProcState) : Bool :=
  ps.monitoringActive == decide (ps.monitoringTaskRef = some TaskStatus.running)

/-- Observable outcome of one command handler invocation: the replies sent to
the chat, the resulting global state, how many remote-client calls were made,
and whether a new background loop task was created. -/
structure HandlerResult where
  replies : List String
  state : ProcState
  apiCalls : Nat
  taskSpawned : Bool
deriving DecidableEq, Repr

/-- Whitespace split with a maxsplit bound, Python `str.split(maxsplit=n)`:
runs of whitespace separate words; once n splits were made the remainder
(leading whitespace stripped) is the final element. -/
def pySplitWsAux : List Char → Nat → List (List Char)
  | cs, n =>
    match cs.dropWhile Char.isWhitespace, n with
    | [], _ => []
    | c :: rest, 0 => [c :: rest]
    | c :: rest, Nat.succ m =>
      ((c :: rest).takeWhile (fun ch => ! ch.isWhitespace)) ::
        pySplitWsAux ((c :: rest).dropWhile (fun ch => ! ch.isWhitespace)) m

/-- Python `text.split(maxsplit=n)` on a string. -/
def pySplitWs (s : String) (maxsplit : Nat) : List String :=
  (pySplitWsAux s.data maxsplit).map (fun cs => String.mk cs)

/-- First-separator split, Python `s.split(sep, 1)` for a one-char separator
known to occur in `s`. -/
def pySplitOnce (s : String) (sep : Char) : String × String :=
  (String.mk (s.data.takeWhile (fun c => c ≠ sep)),
   String.mk (((s.data.dropWhile (fun c => c ≠ sep)).drop 1)))

/-- Payload of jules_client.create_session as read by cmd_create; `none`
stands for the empty dict returned on a request error. -/
structure CreateData where
  id : Option String
  url : Option String
  state : Option String
deriving DecidableEq, Repr

/-- Payload of jules_client.get_session as read by _send_session_info; `none`
stands for the empty dict returned on a request error. -/
structure InfoData where
  id : Option String
  title : Option String
  state : Option String
  url : Option String
deriving DecidableEq, Repr

/-- One activity object of the list_activities payload. -/
structure Activity where
  type : Option String
  createTime : Option String
deriving DecidableEq, Repr

/-- Handler of /start (bot.py lines 44-53): no authorization gate, static help
text, no state access. -/
def cmdStart (st : ProcState) : HandlerResult :=
  { replies := ["Hello! I am the Jules Monitoring Bot.\nCommands:\n/list - List recent sessions\n/monitor - Start monitoring sessions for 1 hour\n/create <owner/repo> <prompt> - Create a new session"],
    state := st, apiCalls := 0, taskSpawned := false }

/-- Handler of /create (bot.py lines 55-104). The owner and repo split out of
the repo argument only feed the remote create call, which is summarised by
the createResult input and the apiCalls count. -/
def cmdCreate (chatId admin text : String) (createResult : Option CreateData)
    (st : ProcState) : HandlerResult :=
  if chatId ≠ admin then
    { replies := ["Unauthorized."], state := st, apiCalls := 0, taskSpawned := false }
  else
    match pySplitWs text 2 with
    | _ :: repoArg :: _prompt :: _ =>
      if ¬ repoArg.contains '/' then
        { replies := ["Invalid repo format. Use owner/repo (e.g., Montelibero/docker-helper)"],
          state := st, apiCalls := 0, taskSpawned := false }
      else
        match createResult with
        | none =>
          { replies := ["Creating session...", "Failed to create session. Check logs."],
            state := st, apiCalls := 1, taskSpawned := false }
        | some d =>
          let sId := d.id.getD "Unknown ID"
          let sUrl := d.url.getD ("https://jules.google.com/session/" ++ sId)
          let sState := d.state.getD "Unknown State"
          { replies := ["Creating session...",
              "✅ Session Created!\n🆔 ID: " ++ htmlCode sId ++ "\n🔗 URL: " ++ htmlQuote sUrl
                ++ "\n📊 State: " ++ htmlQuote sState],
            state := st, apiCalls := 1, taskSpawned := false }
    | _ =>
      { replies := ["Usage: /create <owner/repo> <prompt>"], state := st, apiCalls := 0,
        taskSpawned := false }

/-- Handler of /list (bot.py lines 106-130); the sessions input is the
`sessions` list of the fetched payload (empty on a soft-failed fetch). -/
def cmdList (chatId admin : String) (sessions : List RawSession) (st : ProcState) :
    HandlerResult :=
  if chatId ≠ admin then
    { replies := ["Unauthorized."], state := st, apiCalls := 0, taskSpawned := false }
  else if sessions.isEmpty then
    { replies := ["Fetching sessions...", "No sessions found."], state := st, apiCalls := 1,
      taskSpawned := false }
  else
    { replies := ["Fetching sessions...",
        String.intercalate "\n" (htmlBold "Recent Sessions:" ::
          sessions.map (fun s =>
            "🆔 " ++ htmlCode (s.id.getD "Unknown ID") ++ "\nTitle: "
              ++ htmlQuote (s.title.getD "No Title") ++ "\n"))],
      state := st, apiCalls := 1, taskSpawned := false }

/-- The _send_session_info helper (bot.py lines 132-157): replies produced for
a session id and a fetched payload. -/
def sendSessionInfo (sessionId : String) (infoResult : Option InfoData) : List String :=
  let fetching := "Fetching info for session " ++ sessionId ++ "..."
  let notFound := "❌ Session " ++ sessionId ++ " not found or error occurred."
  match infoResult with
  | none => [fetching, notFound]
  | some d =>
    match d.id with
    | none => [fetching, notFound]
    | some sId =>
      let sTitle := d.title.getD "No Title"
      let sState := d.state.getD "Unknown State"
      let cleanId := sId.replace "sessions/" ""
      let sUrl := d.url.getD ("https://jules.google.com/session/" ++ cleanId)
      [fetching,
       "🆔 ID: " ++ htmlCode cleanId ++ "\n📌 Title: " ++ htmlQuote sTitle ++ "\n📊 State: "
         ++ htmlQuote sState ++ "\n🔗 URL: " ++ htmlQuote sUrl
         ++ "\n\nActivities: /list_activities_" ++ cleanId]

/-- Handler of /info <id> (bot.py lines 159-172). -/
def cmdInfo (chatId admin text : String) (infoResult : Option InfoData) (st : ProcState) :
    HandlerResult :=
  if chatId ≠ admin then
    { replies := ["Unauthorized."], state := st, apiCalls := 0, taskSpawned := false }
  else
    match pySplitWs text 1 with
    | _ :: arg :: _ =>
      { replies := sendSessionInfo arg.trim infoResult, state := st, apiCalls := 1,
        taskSpawned := false }
    | _ =>
      { replies := ["Usage: /info <session_id>"], state := st, apiCalls := 0,
        taskSpawned := false }

/-- Match of the pattern used by cmd_info_regex (bot.py line 182), returning
the captured digit group. -/
def infoPattern (text : String) : Option String :=
  if text.startsWith "/info_" then
    let rest := text.drop 6
    if rest.length > 0 && rest.data.all Char.isDigit then some rest else none
  else none

/-- Handler of /info_<id> (bot.py lines 175-187): the authorization gate runs
before the pattern is re-checked; a non-matching text yields no reply. -/
def cmdInfoRegex (chatId admin text : String) (infoResult : Option InfoData)
    (st : ProcState) : HandlerResult :=
  if chatId ≠ admin then
    { replies := ["Unauthorized."], state := st, apiCalls := 0, taskSpawned := false }
  else
    match infoPattern text with
    | none => { replies := [], state := st, apiCalls := 0, taskSpawned := false }
    | some sessionId =>
      { replies := sendSessionInfo sessionId infoResult, state := st, apiCalls := 1,
        taskSpawned := false }

/-- Match of the pattern used by cmd_activities_dynamic (bot.py line 196). -/
def activitiesPattern (text : String) : Option String :=
  if text.startsWith "/list_activities_" then
    let rest := text.drop 17
    if rest.length > 0 && rest.data.all Char.isDigit then some rest else none
  else none

/-- Handler of /list_activities_<id> (bot.py lines 189-220), with the 4000
character truncation of the reply body. -/
def cmdActivities (chatId admin text : String) (acts : List Activity) (st : ProcState) :
    HandlerResult :=
  if chatId ≠ admin then
    { replies := ["Unauthorized."], state := st, apiCalls := 0, taskSpawned := false }
  else
    match activitiesPattern text with
    | none => { replies := [], state := st, apiCalls := 0, taskSpawned := false }
    | some sessionId =>
      let fetching := "Fetching activities for session " ++ sessionId ++ "..."
      if acts.isEmpty then
        { replies := [fetching, "No activities found."], state := st, apiCalls := 1,
          taskSpawned := false }
      else
        let body := String.intercalate "\n" (htmlBold ("Activities for " ++ sessionId ++ ":") ::
          acts.map (fun a => "• " ++ htmlCode (a.type.getD "Unknown") ++ " at "
            ++ (a.createTime.getD "")))
        let body2 := if body.length > 4000 then body.take 4000 ++ "..." else body
        { replies := [fetching, body2], state := st, apiCalls := 1, taskSpawned := false }

/-- Handler of /monitor (bot.py lines 282-301), summarised at the granularity
of a completed invocation: unauthorized chats are rejected; when the flag is
already set the handler replies that monitoring is already active and changes
nothing (there is no stop branch in this source); otherwise it sets the flag,
replies, and records a freshly created task handle. The interleaving inside
the start branch is modelled separately by `cmdMonitorStartSteps`. -/
def cmdMonitor (chatId admin : String) (st : ProcState) : HandlerResult :=
  if chatId ≠ admin then
    { replies := ["Unauthorized."], state := st, apiCalls := 0, taskSpawned := false }
  else if st.monitoringActive then
    { replies := ["Monitoring is already active."], state := st, apiCalls := 0,
      taskSpawned := false }
  else
    { replies := ["Monitoring started. I will check for changes every minute for the next hour."],
      state := { st with monitoringActive := true, monitoringTaskRef := some TaskStatus.running },
      apiCalls := 0, taskSpawned := true }

/-- Atomic steps touching the Run State, used to observe intermediate states
of cmd_monitor's start branch and of the loop's exit epilogue. -/
inductive LifecycleStep where
  | setActive (b : Bool)
  | answerStarted
  | createTask
  | sendFinished
  | taskReturn
deriving DecidableEq, Repr

/-- Effect of one lifecycle step on the globals. `taskReturn` is the loop
coroutine returning, which completes the recorded task if one is present. -/
def applyStep (ps : ProcState) : LifecycleStep → ProcState
  | LifecycleStep.setActive b => { ps with monitoringActive := b }
  | LifecycleStep.answerStarted => ps
  | LifecycleStep.createTask => { ps with monitoringTaskRef := some TaskStatus.running }
  | LifecycleStep.sendFinished => ps
  | LifecycleStep.taskReturn =>
    { ps with monitoringTaskRef := ps.monitoringTaskRef.map (fun _ => TaskStatus.completed) }

/-- Sequential execution of lifecycle steps. -/
def applySteps (ps : ProcState) (steps : List LifecycleStep) : ProcState :=
  steps.foldl applyStep ps

/-- All states visited while executing a step list, the initial one included. -/
def statesAlong (ps : ProcState) : List LifecycleStep → List ProcState
  | [] => [ps]
  | s :: rest => ps :: statesAlong (applyStep ps s) rest

/-- The start branch of cmd_monitor in source order (bot.py lines 295-301):
the flag is set, the acknowledgement is awaited, only then is the task
created. -/
def cmdMonitorStartSteps : List LifecycleStep :=
  [LifecycleStep.setActive true, LifecycleStep.answerStarted, LifecycleStep.createTask]

/-- The exit epilogue of the monitoring loop in source order (bot.py lines
278-280) followed by the coroutine returning: the flag is cleared, the
finished notice is awaited, then the task completes. -/
def loopExitSteps : List LifecycleStep :=
  [LifecycleStep.setActive false, LifecycleStep.sendFinished, LifecycleStep.taskReturn]

/-- Overwriting a key stores the new value. -/
theorem storeGet_storeSet_self (st : Store) (k v : String) :
    storeGet (storeSet st k v) k = some v := by
  induction st with
  | nil => simp [storeSet, storeGet]
  | cons hd rest ih =>
    obtain ⟨k0, v0⟩ := hd
    by_cases h : k0 = k
    · simp [storeSet, storeGet, h]
    · simp [storeSet, storeGet, h, ih]

/-- Overwriting a key leaves every other key untouched. -/
theorem storeGet_storeSet_ne (st : Store) (k v x : String) (h : x ≠ k) :
    storeGet (storeSet st k v) x = storeGet st x := by
  induction st with
  | nil => simp [storeSet, storeGet, Ne.symm h]
  | cons hd rest ih =>
    obtain ⟨k0, v0⟩ := hd
    by_cases h0 : k0 = k
    · subst h0
      simp [storeSet, storeGet, Ne.symm h]
    · simp [storeSet, storeGet, h0]
      by_cases hx : k0 = x <;> simp [hx, ih]

/-- Keys after an update are the old keys plus possibly the written key. -/
theorem mem_keys_storeSet (st : Store) (k v x : String) :
    x ∈ (storeSet st k v).map Prod.fst ↔ x ∈ st.map Prod.fst ∨ x = k := by
  induction st with
  | nil => simp [storeSet, eq_comm]
  | cons hd rest ih =>
    obtain ⟨k0, v0⟩ := hd
    by_cases h : k0 = k
    · subst h
      by_cases hx : x = k0 <;> simp [storeSet, hx]
    · simp [storeSet, h, ih]
      tauto

/-- Updating never duplicates a key. -/
theorem nodup_storeSet (st : Store) (k v : String)
    (h : (st.map Prod.fst).Nodup) : ((storeSet st k v).map Prod.fst).Nodup := by
  induction st with
  | nil => simp [storeSet]
  | cons hd rest ih =>
    obtain ⟨k0, v0⟩ := hd
    simp only [List.map_cons, List.nodup_cons] at h
    by_cases h0 : k0 = k
    · subst h0
      simpa [storeSet] using h
    · simp only [storeSet, h0, if_false, List.map_cons, List.nodup_cons]
      refine ⟨?_, ih h.2⟩
      rw [mem_keys_storeSet]
      rintro (hk | hk)
      · exact h.1 hk
      · exact h0 hk

/-- A session whose key is absent (missing or empty id) is skipped whole. -/
theorem processSession_key_none (r : RawSession) (st : Store)
    (h : sessionKey r = none) : processSession r st = ([], st) := by
  cases hid : r.id with
  | none => simp [processSession, hid]
  | some i =>
    simp only [sessionKey, hid] at h
    by_cases hi : i = ""
    · simp [processSession, hid, hi]
    · simp [hi] at h

/-- A session with a recorded key runs the evaluator on that key and then
overwrites it with the defaulted current state. -/
theorem processSession_key_some (r : RawSession) (st : Store) (i : String)
    (h : sessionKey r = some i) :
    processSession r st =
      (if shouldNotify (storeGet st i) (r.state.getD "UNKNOWN") then
         [notificationText i (r.title.getD "No Title") (r.state.getD "UNKNOWN")]
       else [],
       storeSet st i (r.state.getD "UNKNOWN")) := by
  cases hid : r.id with
  | none => simp [sessionKey, hid] at h
  | some j =>
    simp only [sessionKey, hid] at h
    by_cases hj : j = ""
    · simp [hj] at h
    · simp only [hj, if_false, Option.some.injEq] at h
      subst h
      simp [processSession, hid, hj]

/-- A recorded key comes from the session's id field. -/
theorem sessionKey_eq_some (r : RawSession) (i : String)
    (h : sessionKey r = some i) : r.id = some i ∧ i ≠ "" := by
  cases hid : r.id with
  | none => simp [sessionKey, hid] at h
  | some j =>
    simp only [sessionKey, hid] at h
    by_cases hj : j = ""
    · simp [hj] at h
    · simp only [hj, if_false, Option.some.injEq] at h
      subst h
      exact ⟨rfl, hj⟩

/-- Characterisation of the notification decision of bot.py lines 249-259. -/
theorem shouldNotify_iff (prev : Option String) (v : String) :
    shouldNotify prev v = true ↔
      (prev = none ∧ (v = "AWAITING_PLAN_APPROVAL" ∨ v = "AWAITING_USER_FEEDBACK"))
      ∨ (∃ p, prev = some p ∧ v ≠ p) := by
  cases prev with
  | none => simp [shouldNotify, criticalStates]
  | some p => simp [shouldNotify, bne_iff_ne]

/-- A cycle leaves every key untouched that none of its sessions records. -/
theorem runCheck_frame (sessions : List RawSession) (st : Store) (x : String)
    (h : ∀ r ∈ sessions, sessionKey r ≠ some x) :
    storeGet (runCheck sessions st).2 x = storeGet st x := by
  induction sessions generalizing st with
  | nil => rfl
  | cons r rest ih =>
    have hstep : storeGet (processSession r st).2 x = storeGet st x := by
      cases hk : sessionKey r with
      | none => rw [processSession_key_none r st hk]
      | some i =>
        rw [processSession_key_some r st i hk]
        have : i ≠ x := by
          intro hix
          exact h r (List.mem_cons_self r rest) (hix ▸ hk)
        exact storeGet_storeSet_ne _ _ _ _ (Ne.symm this)
    calc storeGet (runCheck (r :: rest) st).2 x
        = storeGet (runCheck rest (processSession r st).2).2 x := rfl
      _ = storeGet (processSession r st).2 x :=
          ih _ (fun r' hr' => h r' (List.mem_cons_of_mem r hr'))
      _ = storeGet st x := hstep

/-- One processing step never drops a present key. -/
theorem processSession_presence (r : RawSession) (st : Store) (y v : String)
    (h : storeGet st y = some v) :
    ∃ v', storeGet (processSession r st).2 y = some v' := by
  cases hk : sessionKey r with
  | none => rw [processSession_key_none r st hk]; exact ⟨v, h⟩
  | some i =>
    rw [processSession_key_some r st i hk]
    by_cases hy : y = i
    · subst hy
      exact ⟨_, storeGet_storeSet_self st y _⟩
    · rw [storeGet_storeSet_ne st i _ y hy]
      exact ⟨v, h⟩

/-- A cycle never removes an entry from the store. -/
theorem runCheck_presence (sessions : List RawSession) (st : Store) (y v : String)
    (h : storeGet st y = some v) :
    ∃ v', storeGet (runCheck sessions st).2 y = some v' := by
  induction sessions generalizing st v with
  | nil => exact ⟨v, h⟩
  | cons r rest ih =>
    obtain ⟨v1, hv1⟩ := processSession_presence r st y v h
    exact ih _ _ hv1

/-- A cycle keeps the keys of the store without duplicates. -/
theorem runCheck_nodup (sessions : List RawSession) (st : Store)
    (h : (st.map Prod.fst).Nodup) : ((runCheck sessions st).2.map Prod.fst).Nodup := by
  induction sessions generalizing st with
  | nil => exact h
  | cons r rest ih =>
    have hstep : ((processSession r st).2.map Prod.fst).Nodup := by
      cases hk : sessionKey r with
      | none => rw [processSession_key_none r st hk]; exact h
      | some i =>
        rw [processSession_key_some r st i hk]
        exact nodup_storeSet st i _ h
    exact ih _ hstep

/-- A cycle whose every recorded session already has its defaulted state in
the store emits no notification. -/
theorem runCheck_stable (sessions : List RawSession) (st : Store)
    (h : ∀ r ∈ sessions, ∀ i, sessionKey r = some i →
      storeGet st i = some (r.state.getD "UNKNOWN")) :
    (runCheck sessions st).1 = [] := by
  induction sessions generalizing st with
  | nil => rfl
  | cons r rest ih =>
    cases hk : sessionKey r with
    | none =>
      have hr := processSession_key_none r st hk
      show ((processSession r st).1 ++ (runCheck rest (processSession r st).2).1) = []
      rw [hr]
      simpa using ih st (fun r' hr' => h r' (List.mem_cons_of_mem r hr'))
    | some i =>
      have hprev := h r (List.mem_cons_self r rest) i hk
      have hr := processSession_key_some r st i hk
      have hnot : shouldNotify (storeGet st i) (r.state.getD "UNKNOWN") = false := by
        rw [hprev]
        simp [shouldNotify]
      show ((processSession r st).1 ++ (runCheck rest (processSession r st).2).1) = []
      rw [hr]
      simp only [hnot, if_false, List.nil_append]
      refine ih _ (fun r' hr' i' hk' => ?_)
      by_cases hii : i' = i
      · subst hii
        rw [storeGet_storeSet_self]
        have := h r' (List.mem_cons_of_mem r hr') i' hk'
        rw [hprev] at this
        exact this
      · rw [storeGet_storeSet_ne st i _ i' hii]
        exact h r' (List.mem_cons_of_mem r hr') i' hk'

/-- After a cycle with pairwise distinct recorded keys, the store holds each
session's defaulted current state under its key. -/
theorem runCheck_records (sessions : List RawSession) (st : Store)
    (h : (sessions.filterMap sessionKey).Nodup) :
    ∀ r ∈ sessions, ∀ i, sessionKey r = some i →
      storeGet (runCheck sessions st).2 i = some (r.state.getD "UNKNOWN") := by
  induction sessions generalizing st with
  | nil => intro r hr; simp at hr
  | cons r rest ih =>
    intro r' hr' i hk'
    cases hk : sessionKey r with
    | none =>
      have hfm : (r :: rest).filterMap sessionKey = rest.filterMap sessionKey := by
        simp [List.filterMap_cons, hk]
      rw [hfm] at h
      rcases List.mem_cons.mp hr' with hEq | hMem
      · subst hEq
        rw [hk'] at hk
        exact absurd hk (by simp)
      · have : runCheck (r :: rest) st = runCheck rest st := by
          show ((processSession r st).1 ++ _, _) = _
          rw [processSession_key_none r st hk]
          simp
        rw [this]
        exact ih st h r' hMem i hk'
    | some k =>
      have hfm : (r :: rest).filterMap sessionKey = k :: rest.filterMap sessionKey := by
        simp [List.filterMap_cons, hk]
      rw [hfm, List.nodup_cons] at h
      have hsnd : (runCheck (r :: rest) st).2 =
          (runCheck rest (storeSet st k (r.state.getD "UNKNOWN"))).2 := by
        show (runCheck rest (processSession r st).2).2 = _
        rw [processSession_key_some r st k hk]
      rcases List.mem_cons.mp hr' with hEq | hMem
      · subst hEq
        rw [hk'] at hk
        have hik : i = k := by simpa using congrArg (Option.getD · "") hk
        subst hik
        rw [hsnd]
        rw [runCheck_frame rest _ i (fun r2 hr2 hkey => h.1 (List.mem_filterMap.mpr ⟨r2, hr2, hkey⟩))]
        exact storeGet_storeSet_self st i _
      · rw [hsnd]
        exact ih _ h.2 r' hMem i hk'

/-- Shape of a loop run: the iterations begun are exactly the longest prefix
of boundaries passing the condition of bot.py line 229, the loop exits
exactly when some boundary fails it, and the finished notice of line 280 is
sent exactly once on exit and never before. -/
theorem loop_shape (e : Nat) (inputs : List CycleInput) (st : Store) :
    (monitoringLoop e inputs st).iterations = (inputs.takeWhile (loopCond e)).length ∧
    (monitoringLoop e inputs st).exited = !(inputs.all (loopCond e)) ∧
    (monitoringLoop e inputs st).finishedNotices =
      (if (monitoringLoop e inputs st).exited = true then 1 else 0) := by
  induction inputs generalizing st with
  | nil => simp [monitoringLoop]
  | cons c rest ih =>
    cases hc : loopCond e c with
    | false => simp [monitoringLoop, hc, List.takeWhile_cons, List.all_cons]
    | true =>
      obtain ⟨h1, h2, h3⟩ := ih (runIteration c.fetch c.deliveryOk st).1
      simp only [monitoringLoop, hc, if_true, List.takeWhile_cons, List.all_cons,
        Bool.true_and, List.length_cons]
      exact ⟨by rw [h1], by rw [h2], by rw [h3]⟩

/-- C1: a session observation processed by the monitoring loop emits a
notification exactly when either the identifier has no recorded status and
the current status is one of the two critical statuses, or a status is
recorded and the current status differs from it. -/
theorem transition_rule (st : Store) (r : RawSession) (i : String)
    (hid : r.id = some i) (hi : i ≠ "") :
    (processSession r st).1 ≠ [] ↔
      (storeGet st i = none ∧
        (r.state.getD "UNKNOWN" = "AWAITING_PLAN_APPROVAL"
          ∨ r.state.getD "UNKNOWN" = "AWAITING_USER_FEEDBACK"))
      ∨ (∃ p, storeGet st i = some p ∧ r.state.getD "UNKNOWN" ≠ p) := by
  have hk : sessionKey r = some i := by simp [sessionKey, hid, hi]
  rw [processSession_key_some r st i hk]
  rw [← shouldNotify_iff (storeGet st i) (r.state.getD "UNKNOWN")]
  cases hsn : shouldNotify (storeGet st i) (r.state.getD "UNKNOWN") <;> simp [hsn]

/-- Witness for C1 at a concrete first-sight critical observation. -/
theorem transition_rule_witness :
    (RawSession.mk (some "1") (some "T") (some "AWAITING_PLAN_APPROVAL")).id = some "1"
    ∧ ("1" : String) ≠ ""
    ∧ ((processSession
          (RawSession.mk (some "1") (some "T") (some "AWAITING_PLAN_APPROVAL")) []).1 ≠ [] ↔
        (storeGet [] "1" = none ∧
          ((RawSession.mk (some "1") (some "T")
              (some "AWAITING_PLAN_APPROVAL")).state.getD "UNKNOWN" = "AWAITING_PLAN_APPROVAL"
            ∨ (RawSession.mk (some "1") (some "T")
              (some "AWAITING_PLAN_APPROVAL")).state.getD "UNKNOWN" = "AWAITING_USER_FEEDBACK"))
        ∨ (∃ p, storeGet [] "1" = some p ∧
            (RawSession.mk (some "1") (some "T")
              (some "AWAITING_PLAN_APPROVAL")).state.getD "UNKNOWN" ≠ p)) :=
  ⟨rfl, by decide,
    transition_rule [] (RawSession.mk (some "1") (some "T") (some "AWAITING_PLAN_APPROVAL"))
      "1" rfl (by decide)⟩

/-- C2 counterexample: with a loop active, a /monitor invocation from the
operator chat replies that monitoring is already active and leaves the
active flag set and the task handle untouched, spawning nothing — it does
not flip the flag false, cancel the task, clear the handle or reply
"stopped". -/
theorem monitor_toggle_counterexample :
    (cmdMonitor "123456" "123456"
        (ProcState.mk true (some TaskStatus.running) [])).replies
      = ["Monitoring is already active."]
    ∧ (cmdMonitor "123456" "123456"
        (ProcState.mk true (some TaskStatus.running) [])).state
      = ProcState.mk true (some TaskStatus.running) []
    ∧ (cmdMonitor "123456" "123456"
        (ProcState.mk true (some TaskStatus.running) [])).state.monitoringActive ≠ false
    ∧ (cmdMonitor "123456" "123456"
        (ProcState.mk true (some TaskStatus.running) [])).taskSpawned = false := by
  refine ⟨rfl, rfl, by decide, rfl⟩

/-- C2 amended: invoking /monitor from the operator chat while a loop is
active is a rejection no-op — it replies "Monitoring is already active.",
changes no state, and spawns no second loop; in particular two successive
invocations never create two concurrent loops. -/
theorem monitor_second_call_noop (chatId admin : String) (st : ProcState)
    (h1 : chatId = admin) (h2 : st.monitoringActive = true) :
    cmdMonitor chatId admin st =
      { replies := ["Monitoring is already active."], state := st, apiCalls := 0,
        taskSpawned := false } := by
  subst h1
  simp [cmdMonitor, h2]

/-- Witness for C2's amended claim at a concrete active state. -/
theorem monitor_second_call_noop_witness :
    ("1" : String) = "1"
    ∧ (ProcState.mk true (some TaskStatus.running) []).monitoringActive = true
    ∧ cmdMonitor "1" "1" (ProcState.mk true (some TaskStatus.running) []) =
        { replies := ["Monitoring is already active."],
          state := ProcState.mk true (some TaskStatus.running) [], apiCalls := 0,
          taskSpawned := false } :=
  ⟨rfl, rfl, monitor_second_call_noop "1" "1" _ rfl rfl⟩

/-- C3 counterexample: a run whose first boundary observes the active flag
cleared before the deadline (time 0, deadline 3600) exits and still sends one
finished notice, not zero. -/
theorem finished_notice_counterexample :
    (0 : Nat) < 3600
    ∧ (CycleInput.mk 0 false (FetchResult.ok []) true).active = false
    ∧ (monitoringLoop 3600 [CycleInput.mk 0 false (FetchResult.ok []) true] []).exited = true
    ∧ (monitoringLoop 3600 [CycleInput.mk 0 false (FetchResult.ok []) true] []).finishedNotices
        = 1
    ∧ (monitoringLoop 3600 [CycleInput.mk 0 false (FetchResult.ok []) true] []).finishedNotices
        ≠ 0 := by
  refine ⟨by decide, rfl, rfl, rfl, by decide⟩

/-- C3 amended: the loop sends exactly one finished notice whenever it exits
— whether the deadline expired or the flag was observed false — and none
while it is still running; the notice of bot.py line 280 is unconditional,
so a cleared-flag exit is not silent. -/
theorem finished_notice_always_on_exit (e : Nat) (inputs : List CycleInput) (st : Store) :
    (monitoringLoop e inputs st).finishedNotices =
      (if (monitoringLoop e inputs st).exited = true then 1 else 0) :=
  (loop_shape e inputs st).2.2

/-- C4: an exception in the fetch or evaluation of an iteration is caught
inside that iteration: the cycle delivers nothing, leaves the store
untouched, and the loop proceeds to the next boundary exactly as if the
iteration had not happened, adding one to the count of begun iterations. -/
theorem fetch_error_iteration (e : Nat) (c : CycleInput) (rest : List CycleInput)
    (st : Store) (hc : loopCond e c = true) (hf : c.fetch = FetchResult.error) :
    runIteration c.fetch c.deliveryOk st = (st, [])
    ∧ monitoringLoop e (c :: rest) st =
        { monitoringLoop e rest st with
          iterations := (monitoringLoop e rest st).iterations + 1 } := by
  constructor
  · rw [hf]; rfl
  · simp [monitoringLoop, hc, runIteration, hf]

/-- Witness for C4 at a concrete failing fetch. -/
theorem fetch_error_iteration_witness :
    loopCond 3600 (CycleInput.mk 0 true FetchResult.error true) = true
    ∧ (CycleInput.mk 0 true FetchResult.error true).fetch = FetchResult.error
    ∧ runIteration (CycleInput.mk 0 true FetchResult.error true).fetch
        (CycleInput.mk 0 true FetchResult.error true).deliveryOk [] = ([], [])
    ∧ monitoringLoop 3600 [CycleInput.mk 0 true FetchResult.error true] [] =
        { monitoringLoop 3600 [] [] with
          iterations := (monitoringLoop 3600 [] []).iterations + 1 } :=
  ⟨by decide, rfl,
    (fetch_error_iteration 3600 (CycleInput.mk 0 true FetchResult.error true) [] []
      (by decide) rfl).1,
    (fetch_error_iteration 3600 (CycleInput.mk 0 true FetchResult.error true) [] []
      (by decide) rfl).2⟩

/-- C5: a run fixes its deadline at start time plus one hour, and the
iterations it begins are exactly the longest prefix of boundary observations
at which both the time is below that deadline and the flag is still set; the
loop exits exactly when some observed boundary fails one of the checks. -/
theorem deadline_guard (startTime : Nat) (inputs : List CycleInput) (st : Store) :
    (monitorRun startTime inputs st).iterations =
      (inputs.takeWhile (loopCond (startTime + 3600))).length
    ∧ (monitorRun startTime inputs st).exited =
      !(inputs.all (loopCond (startTime + 3600))) := by
  obtain ⟨h1, h2, _⟩ := loop_shape (startTime + 3600) inputs st
  exact ⟨h1, h2⟩

/-- C6 counterexample: starting from the initial process state, the start
branch of cmd_monitor sets the active flag before creating the task, so the
Run State invariant is false at the two intermediate states of its trace
(flag already true, no running handle yet) even though it holds at entry and
at completion. -/
theorem run_state_inv_counterexample :
    runStateOk procInit = true
    ∧ (statesAlong procInit cmdMonitorStartSteps).map runStateOk
        = [true, false, false, true] := by
  refine ⟨rfl, rfl⟩

/-- C6 amended: the Run State invariant holds at process start and after each
complete lifecycle operation (a full cmd_monitor start branch, a full loop
exit epilogue once the coroutine has returned), but it is transiently
violated inside those operations: between setting the flag and recording the
task handle, and between clearing the flag and the task completing, flag and
handle are inconsistent. -/
theorem run_state_inv_quiescent (ps : ProcState) :
    runStateOk procInit = true
    ∧ runStateOk (applySteps ps cmdMonitorStartSteps) = true
    ∧ runStateOk (applySteps ps loopExitSteps) = true := by
  refine ⟨rfl, ?_, ?_⟩
  · simp [applySteps, cmdMonitorStartSteps, applyStep, runStateOk]
  · cases h : ps.monitoringTaskRef <;>
      simp [applySteps, loopExitSteps, applyStep, runStateOk, h]

/-- C7: the session state store keeps exactly one status per identifier (its
keys stay without duplicates and an update overwrites in place), an entry is
never removed by a poll, an identifier reported by no session of the current
poll keeps its stored status unchanged, and neither the /monitor handler nor
any lifecycle step of a run's start or stop ever touches the store. -/
theorem store_persistence (sessions : List RawSession) (st : Store)
    (x y v chatId admin : String) (ps : ProcState) (step : LifecycleStep)
    (hnodup : (st.map Prod.fst).Nodup)
    (habsent : ∀ r ∈ sessions, r.id ≠ some x)
    (hy : storeGet st y = some v) :
    storeGet (runCheck sessions st).2 x = storeGet st x
    ∧ ((runCheck sessions st).2.map Prod.fst).Nodup
    ∧ (∃ v', storeGet (runCheck sessions st).2 y = some v')
    ∧ storeGet (storeSet st y v) y = some v
    ∧ (cmdMonitor chatId admin ps).state.sessionStates = ps.sessionStates
    ∧ (applyStep ps step).sessionStates = ps.sessionStates := by
  refine ⟨?_, runCheck_nodup sessions st hnodup, runCheck_presence sessions st y v hy,
    storeGet_storeSet_self st y v, ?_, ?_⟩
  · refine runCheck_frame sessions st x (fun r hr hkey => ?_)
    exact habsent r hr (sessionKey_eq_some r x hkey).1
  · by_cases h : chatId ≠ admin
    · simp [cmdMonitor, h]
    · by_cases h2 : ps.monitoringActive = true <;> simp [cmdMonitor, h, h2]
  · cases step <;> simp [applyStep]

/-- Witness for C7 at a concrete store and poll. -/
theorem store_persistence_witness :
    (([("1", "COMPLETED")] : Store).map Prod.fst).Nodup
    ∧ (∀ r ∈ [RawSession.mk (some "2") none (some "RUNNING")], r.id ≠ some "1")
    ∧ storeGet [("1", "COMPLETED")] "1" = some "COMPLETED"
    ∧ (storeGet (runCheck [RawSession.mk (some "2") none (some "RUNNING")]
          [("1", "COMPLETED")]).2 "1" = storeGet [("1", "COMPLETED")] "1"
      ∧ ((runCheck [RawSession.mk (some "2") none (some "RUNNING")]
          [("1", "COMPLETED")]).2.map Prod.fst).Nodup
      ∧ (∃ v', storeGet (runCheck [RawSession.mk (some "2") none (some "RUNNING")]
          [("1", "COMPLETED")]).2 "1" = some v')
      ∧ storeGet (storeSet [("1", "COMPLETED")] "1" "COMPLETED") "1" = some "COMPLETED"
      ∧ (cmdMonitor "9" "9" procInit).state.sessionStates = procInit.sessionStates
      ∧ (applyStep procInit (LifecycleStep.setActive true)).sessionStates
          = procInit.sessionStates) :=
  ⟨by decide, by decide, rfl,
    store_persistence [RawSession.mk (some "2") none (some "RUNNING")] [("1", "COMPLETED")]
      "1" "1" "COMPLETED" "9" "9" procInit (LifecycleStep.setActive true)
      (by decide) (by decide) rfl⟩

/-- C8: a cycle whose collected notifications are nonempty delivers them as a
single message, the bold Updates header followed by the newline-joined
changes; a cycle collecting nothing sends nothing, and no cycle ever sends
more than one digest message. -/
theorem batched_notification (sessions : List RawSession) (st : Store) :
    (runIteration (FetchResult.ok sessions) true st).2 =
      (if (runCheck sessions st).1 = [] then []
       else [htmlBold "Updates:" ++ "\n" ++ String.intercalate "\n" (runCheck sessions st).1])
    ∧ (runIteration (FetchResult.ok sessions) true st).2.length ≤ 1 := by
  cases h : (runCheck sessions st).1 with
  | nil => simp [runIteration, cycleMessages, h]
  | cons a l => simp [runIteration, cycleMessages, h]

/-- C9: every command handler except /start, invoked from a chat other than
the configured operator chat, replies "Unauthorized." and returns with the
global state unchanged, no remote call made and no task spawned. -/
theorem unauthorized_commands (chatId admin text : String) (cr : Option CreateData)
    (sessions : List RawSession) (info : Option InfoData) (acts : List Activity)
    (st : ProcState) (h : chatId ≠ admin) :
    cmdCreate chatId admin text cr st =
      { replies := ["Unauthorized."], state := st, apiCalls := 0, taskSpawned := false }
    ∧ cmdList chatId admin sessions st =
      { replies := ["Unauthorized."], state := st, apiCalls := 0, taskSpawned := false }
    ∧ cmdInfo chatId admin text info st =
      { replies := ["Unauthorized."], state := st, apiCalls := 0, taskSpawned := false }
    ∧ cmdInfoRegex chatId admin text info st =
      { replies := ["Unauthorized."], state := st, apiCalls := 0, taskSpawned := false }
    ∧ cmdActivities chatId admin text acts st =
      { replies := ["Unauthorized."], state := st, apiCalls := 0, taskSpawned := false }
    ∧ cmdMonitor chatId admin st =
      { replies := ["Unauthorized."], state := st, apiCalls := 0, taskSpawned := false } := by
  refine ⟨?_, ?_, ?_, ?_, ?_, ?_⟩ <;>
    simp [cmdCreate, cmdList, cmdInfo, cmdInfoRegex, cmdActivities, cmdMonitor, h]

/-- Witness for C9 at a concrete non-operator chat id. -/
theorem unauthorized_commands_witness :
    ("999" : String) ≠ "123456"
    ∧ (cmdCreate "999" "123456" "/create a/b p" none procInit =
        { replies := ["Unauthorized."], state := procInit, apiCalls := 0, taskSpawned := false }
      ∧ cmdList "999" "123456" [] procInit =
        { replies := ["Unauthorized."], state := procInit, apiCalls := 0, taskSpawned := false }
      ∧ cmdInfo "999" "123456" "/info 7" none procInit =
        { replies := ["Unauthorized."], state := procInit, apiCalls := 0, taskSpawned := false }
      ∧ cmdInfoRegex "999" "123456" "/info_7" none procInit =
        { replies := ["Unauthorized."], state := procInit, apiCalls := 0, taskSpawned := false }
      ∧ cmdActivities "999" "123456" "/list_activities_7" [] procInit =
        { replies := ["Unauthorized."], state := procInit, apiCalls := 0, taskSpawned := false }
      ∧ cmdMonitor "999" "123456" procInit =
        { replies := ["Unauthorized."], state := procInit, apiCalls := 0,
          taskSpawned := false }) :=
  ⟨by decide,
    unauthorized_commands "999" "123456" "/create a/b p" none [] none [] procInit (by decide)⟩

/-- C10: within one cycle the store is updated before the batched delivery,
so a delivery failure (caught by the iteration's handler) leaves exactly the
same store as a successful one while sending nothing; and when each
identifier is reported once in the poll, re-running the same poll against
the updated store collects no notification, so the failed cycle's
transitions are never re-notified. -/
theorem store_update_before_delivery (sessions : List RawSession) (st : Store)
    (hnodup : (sessions.filterMap sessionKey).Nodup) :
    (runIteration (FetchResult.ok sessions) false st).1 = (runCheck sessions st).2
    ∧ (runIteration (FetchResult.ok sessions) true st).1 =
        (runIteration (FetchResult.ok sessions) false st).1
    ∧ (runIteration (FetchResult.ok sessions) false st).2 = []
    ∧ (runCheck sessions (runCheck sessions st).2).1 = [] := by
  refine ⟨rfl, rfl, by simp [runIteration], ?_⟩
  exact runCheck_stable sessions _ (runCheck_records sessions st hnodup)

/-- Witness for C10 at a concrete one-session poll. -/
theorem store_update_before_delivery_witness :
    (([RawSession.mk (some "1") (some "T") (some "RUNNING")].filterMap sessionKey).Nodup)
    ∧ ((runIteration (FetchResult.ok [RawSession.mk (some "1") (some "T") (some "RUNNING")])
          false []).1
        = (runCheck [RawSession.mk (some "1") (some "T") (some "RUNNING")] []).2
      ∧ (runIteration (FetchResult.ok [RawSession.mk (some "1") (some "T") (some "RUNNING")])
          true []).1
        = (runIteration (FetchResult.ok [RawSession.mk (some "1") (some "T") (some "RUNNING")])
            false []).1
      ∧ (runIteration (FetchResult.ok [RawSession.mk (some "1") (some "T") (some "RUNNING")])
          false []).2 = []
      ∧ (runCheck [RawSession.mk (some "1") (some "T") (some "RUNNING")]
          (runCheck [RawSession.mk (some "1") (some "T") (some "RUNNING")] []).2).1 = []) :=
  ⟨by decide,
    store_update_before_delivery [RawSession.mk (some "1") (some "T") (some "RUNNING")] []
      (by decide)⟩

end JulesBot
